import Mathlib

/-!
Verification development for the App Service best-practices analyzer
(`analyze-app-services.py`).  The rule catalog and evaluation engine are
embedded as Lean functions over a typed resource-record model; a second,
dynamic dictionary semantics (`JVal` with `Except`) captures the Python
attribute-access behaviour needed to reason about malformed sub-fields.
-/

namespace AppAssess

set_option maxRecDepth 8192
set_option maxHeartbeats 4000000

/-- Python-style `or` on two strings: the first operand if it is truthy
(non-empty), otherwise the second. -/
def pyOrS (a b : String) : String :=
  if a.isEmpty then b else a

/-- Python-style `or` where the first operand is an optional string
(`dict.get` result, `None` when absent) and the second a string. -/
def pyOrSO (a : Option String) (b : String) : String :=
  match a with
  | some s => if s.isEmpty then b else s
  | none => b

/-- Python-style `or` where the first operand is an optional boolean
(`dict.get` result) and the second a boolean. -/
def pyOrB : Option Bool → Bool → Bool
  | some true, _ => true
  | some false, b => b
  | none, b => b

/-- Python truthiness of an optional string: `not x` is true when the value
is `None` or the empty string. -/
def pyFalsyS : Option String → Bool
  | none => true
  | some s => s.isEmpty

/-- Substring test on character lists: does `hay` contain `needle` as a
contiguous sublist?  Mirrors the Python `in` operator on strings. -/
def isSubList (needle : List Char) : List Char → Bool
  | [] => needle.isEmpty
  | c :: t => needle.isPrefixOf (c :: t) || isSubList needle t

/-- Python `needle in hay` for strings. -/
def strIn (needle hay : String) : Bool :=
  isSubList needle.toList hay.toList

/-- Lexicographic comparison on character lists: the model of the Python
`<` operator on strings (code-point order). -/
def listLt : List Char → List Char → Bool
  | [], [] => false
  | [], _ :: _ => true
  | _ :: _, [] => false
  | a :: as, b :: bs => if a < b then true else if b < a then false else listLt as bs

/-- Python `a < b` on strings. -/
def pyStrLt (a b : String) : Bool := listLt a.data b.data

/-- Python `s.lower()` (ASCII case folding, as used by every tier and
pattern string the analyzer compares). -/
def pyLowerStr (s : String) : String := ⟨s.data.map Char.toLower⟩

/-- Python `s.endswith(suffix)`. -/
def pyEndsWith (s suffix : String) : Bool := suffix.data.isSuffixOf s.data

/-- JSON-like dynamic value, the domain of the Python dictionary semantics. -/
inductive JVal where
  | null
  | bool (b : Bool)
  | num (n : Int)
  | str (s : String)
  | arr (xs : List JVal)
  | obj (kvs : List (String × JVal))

/-- First-match association lookup on a key/value list (dict lookup). -/
def lookupKey : List (String × JVal) → String → Option JVal
  | [], _ => none
  | (k, v) :: rest, key => if k == key then some v else lookupKey rest key

/-- Python `d.get(k, default)`: raises (`AttributeError`) when the receiver
is not a dictionary; otherwise the stored value (even `null`) or the
default. -/
def pyGetD : JVal → String → JVal → Except String JVal
  | .obj kvs, k, dflt => .ok ((lookupKey kvs k).getD dflt)
  | _, _, _ => .error "AttributeError"

/-- Python `d.get(k)` (default `None`). -/
def pyGet (o : JVal) (k : String) : Except String JVal :=
  pyGetD o k .null

/-- Python truthiness of a dynamic value. -/
def truthy : JVal → Bool
  | .null => false
  | .bool b => b
  | .num n => n != 0
  | .str s => !s.isEmpty
  | .arr xs => !xs.isEmpty
  | .obj kvs => !kvs.isEmpty

/-- Python `v.lower()`: only strings have the method; anything else raises. -/
def pyLower : JVal → Except String String
  | .str s => .ok (pyLowerStr s)
  | _ => .error "AttributeError"

/-- Python `v == s` where `s` is a string: values of any other runtime type
compare unequal (no exception). -/
def jEqStr (v : JVal) (s : String) : Bool :=
  match v with
  | .str t => t == s
  | _ => false

/-! ## Typed resource-record model (well-typed snapshot schema) -/

/-- `sku` sub-object of an App Service plan. -/
structure Sku where
  tier : Option String
  capacity : Option Int

def Sku.empty : Sku := ⟨none, none⟩

/-- `appServicePlan` sub-object. -/
structure Plan where
  sku : Option Sku
  zoneRedundant : Option Bool

def Plan.empty : Plan := ⟨none, none⟩

/-- `tlsConfig` sub-object (fields the analyzer reads). -/
structure TlsConfig where
  minTlsVersion : Option String
  alwaysOn : Option Bool
  remoteDebuggingEnabled : Option Bool
  ftpsState : Option String
  http20Enabled : Option Bool

def TlsConfig.empty : TlsConfig := ⟨none, none, none, none, none⟩

/-- `cors` sub-object of `runtimeConfig`. -/
structure Cors where
  allowedOrigins : Option (List String)

/-- `runtimeConfig` sub-object (fields the analyzer reads). -/
structure RuntimeConfig where
  alwaysOn : Option Bool
  remoteDebuggingEnabled : Option Bool
  ftpsState : Option String
  http20Enabled : Option Bool
  linuxFxVersion : Option String
  windowsFxVersion : Option String
  healthCheckPath : Option String
  autoHealEnabled : Option Bool
  cors : Option Cors

def RuntimeConfig.empty : RuntimeConfig :=
  ⟨none, none, none, none, none, none, none, none, none⟩

/-- `config` sub-object (fields the analyzer reads). -/
structure Config where
  httpsOnly : Option Bool
  clientCertEnabled : Option Bool
  clientCertMode : Option String
  linuxFxVersion : Option String

def Config.empty : Config := ⟨none, none, none, none⟩

/-- `identity` sub-object. -/
structure Identity where
  type : Option String

def Identity.empty : Identity := ⟨none⟩

/-- Level-bearing sub-config of application logs (`fileSystem` /
`azureBlobStorage`). -/
structure LevelCfg where
  level : Option String

def LevelCfg.empty : LevelCfg := ⟨none⟩

/-- Enabled-bearing sub-config of HTTP logs (`fileSystem` /
`azureBlobStorage`). -/
structure EnabledCfg where
  enabled : Option Bool

def EnabledCfg.empty : EnabledCfg := ⟨none⟩

/-- `applicationLogsConfiguration` sub-object. -/
structure AppLogsCfg where
  fileSystem : Option LevelCfg
  azureBlobStorage : Option LevelCfg

def AppLogsCfg.empty : AppLogsCfg := ⟨none, none⟩

/-- `httpLogsConfiguration` sub-object. -/
structure HttpLogsCfg where
  fileSystem : Option EnabledCfg
  azureBlobStorage : Option EnabledCfg

def HttpLogsCfg.empty : HttpLogsCfg := ⟨none, none⟩

/-- `diagnosticLogs` sub-object. -/
structure DiagLogs where
  applicationLogsConfiguration : Option AppLogsCfg
  httpLogsConfiguration : Option HttpLogsCfg

def DiagLogs.empty : DiagLogs := ⟨none, none⟩

/-- One IP security restriction entry. -/
structure IpRule where
  action : Option String
  ipAddress : Option String

/-- `ipRestrictions` sub-object. -/
structure IpRestrictions where
  ipSecurityRestrictions : Option (List IpRule)
  scmIpSecurityRestrictions : Option (List IpRule)
  scmIpSecurityRestrictionsUseMain : Option Bool

def IpRestrictions.empty : IpRestrictions := ⟨none, none, none⟩

/-- One custom-domain entry. -/
structure Domain where
  hostName : Option String

/-- `authConfig` sub-object. -/
structure AuthConfig where
  enabled : Option Bool
  unauthenticatedClientAction : Option String

def AuthConfig.empty : AuthConfig := ⟨none, none⟩

/-- One resource record (`appServices` element).  Lists whose elements the
analyzer never inspects keep dynamic (`JVal`) payloads. -/
structure AppService where
  name : Option String
  tlsConfig : Option TlsConfig
  config : Option Config
  identity : Option Identity
  runtimeConfig : Option RuntimeConfig
  appServicePlan : Option Plan
  diagnosticLogs : Option DiagLogs
  backupConfig : Option (List JVal)
  deploymentSlots : Option (List JVal)
  vnetIntegration : Option (List JVal)
  ipRestrictions : Option IpRestrictions
  authConfig : Option AuthConfig
  customDomains : Option (List Domain)
  sslCertificates : Option (List JVal)

/-- The all-absent resource record. -/
def emptyApp : AppService :=
  ⟨none, none, none, none, none, none, none, none, none, none, none, none, none, none⟩

/-- Top-level snapshot document handed to the analyzer. -/
structure Snapshot where
  subscription : Option String
  subscriptionId : Option String
  assessmentDate : Option String
  appServices : Option (List AppService)

/-! ## Finding schema -/

/-- One normalized finding, as produced by the `Finding` class. -/
structure Finding where
  app_name : Option String
  category : String
  severity : String
  title : String
  description : String
  recommendation : String
  reference : String

def Finding.CRITICAL : String := "Critical"
def Finding.HIGH : String := "High"
def Finding.MEDIUM : String := "Medium"
def Finding.LOW : String := "Low"

/-! ## Rule catalog: one Lean function per `check_*` method, each returning
the findings it appends. -/

def check_tls_version (app : AppService) : List Finding :=
  let app_name := app.name
  let tls_config := app.tlsConfig.getD TlsConfig.empty
  let min_tls := tls_config.minTlsVersion
  if pyFalsyS min_tls || pyStrLt (min_tls.getD "") "1.2" then
    [Finding.mk app_name "Security" Finding.CRITICAL
      "Minimum TLS version not set to 1.2 or higher"
      ("Current TLS version: " ++ pyOrSO min_tls "Not set" ++ ". TLS 1.0 and 1.1 are deprecated and insecure.")
      "Set minimum TLS version to 1.2 or higher using: az webapp config set --min-tls-version 1.2"
      "https://learn.microsoft.com/en-us/azure/app-service/configure-ssl-bindings#enforce-tls-versions"]
  else []

def check_https_only (app : AppService) : List Finding :=
  let app_name := app.name
  let config := app.config.getD Config.empty
  let https_only := config.httpsOnly.getD false
  if !https_only then
    [Finding.mk app_name "Security" Finding.HIGH
      "HTTPS Only not enforced"
      "App Service is accessible over HTTP, exposing data to man-in-the-middle attacks."
      "Enable HTTPS Only using: az webapp update --https-only true"
      "https://learn.microsoft.com/en-us/azure/app-service/configure-ssl-bindings#enforce-https"]
  else []

def check_managed_identity (app : AppService) : List Finding :=
  let app_name := app.name
  let identity := app.identity.getD Identity.empty
  let identity_type := identity.type.getD "None"
  if identity_type == "None" then
    [Finding.mk app_name "Security" Finding.MEDIUM
      "Managed Identity not enabled"
      "Not using Managed Identity increases risk of credential exposure in code or configuration."
      "Enable System-Assigned Managed Identity using: az webapp identity assign"
      "https://learn.microsoft.com/en-us/azure/app-service/overview-managed-identity"]
  else []

def check_always_on (app : AppService) : List Finding :=
  let app_name := app.name
  let tls_config := app.tlsConfig.getD TlsConfig.empty
  let runtime_config := app.runtimeConfig.getD RuntimeConfig.empty
  let always_on := pyOrB tls_config.alwaysOn (runtime_config.alwaysOn.getD false)
  let plan := app.appServicePlan.getD Plan.empty
  let sku := pyLowerStr ((plan.sku.getD Sku.empty).tier.getD "")
  if !(["free", "shared"].contains sku) && !always_on then
    [Finding.mk app_name "Performance" Finding.MEDIUM
      "Always On is not enabled"
      "App may experience cold starts and increased latency after idle periods."
      "Enable Always On using: az webapp config set --always-on true"
      "https://learn.microsoft.com/en-us/azure/app-service/configure-common#configure-general-settings"]
  else []

def check_remote_debugging (app : AppService) : List Finding :=
  let app_name := app.name
  let tls_config := app.tlsConfig.getD TlsConfig.empty
  let runtime_config := app.runtimeConfig.getD RuntimeConfig.empty
  let remote_debug := pyOrB tls_config.remoteDebuggingEnabled (runtime_config.remoteDebuggingEnabled.getD false)
  if remote_debug then
    [Finding.mk app_name "Security" Finding.HIGH
      "Remote debugging is enabled"
      "Remote debugging should only be enabled temporarily and poses a security risk in production."
      "Disable remote debugging using: az webapp config set --remote-debugging-enabled false"
      "https://learn.microsoft.com/en-us/azure/app-service/configure-common#configure-general-settings"]
  else []

def check_ftps_state (app : AppService) : List Finding :=
  let app_name := app.name
  let tls_config := app.tlsConfig.getD TlsConfig.empty
  let runtime_config := app.runtimeConfig.getD RuntimeConfig.empty
  let ftps_state := pyOrSO tls_config.ftpsState (runtime_config.ftpsState.getD "")
  if pyLowerStr ftps_state == "allallowed" then
    [Finding.mk app_name "Security" Finding.MEDIUM
      "FTP is allowed (not secure)"
      "Plain FTP is insecure. Only FTPS should be allowed."
      "Set FTPS to FtpsOnly or Disabled: az webapp config set --ftps-state FtpsOnly"
      "https://learn.microsoft.com/en-us/azure/app-service/deploy-ftp"]
  else []

def check_http20_enabled (app : AppService) : List Finding :=
  let app_name := app.name
  let tls_config := app.tlsConfig.getD TlsConfig.empty
  let runtime_config := app.runtimeConfig.getD RuntimeConfig.empty
  let http20 := pyOrB tls_config.http20Enabled (runtime_config.http20Enabled.getD false)
  if !http20 then
    [Finding.mk app_name "Performance" Finding.LOW
      "HTTP/2 not enabled"
      "HTTP/2 provides better performance with multiplexing and header compression."
      "Enable HTTP/2 using: az webapp config set --http20-enabled true"
      "https://learn.microsoft.com/en-us/azure/app-service/configure-common#configure-general-settings"]
  else []

def check_client_certificate_mode (app : AppService) : List Finding :=
  let app_name := app.name
  let config := app.config.getD Config.empty
  let client_cert_enabled := config.clientCertEnabled.getD false
  let client_cert_mode := config.clientCertMode.getD ""
  if client_cert_enabled && client_cert_mode == "Optional" then
    [Finding.mk app_name "Security" Finding.LOW
      "Client certificates set to Optional"
      "Client certificates are enabled but set to optional mode."
      "Consider setting to Required if mutual TLS authentication is needed: az webapp update --client-cert-mode Required"
      "https://learn.microsoft.com/en-us/azure/app-service/app-service-web-configure-tls-mutual-auth"]
  else []

def check_diagnostic_logs (app : AppService) : List Finding :=
  let app_name := app.name
  let diag_logs := app.diagnosticLogs.getD DiagLogs.empty
  let app_logs := diag_logs.applicationLogsConfiguration.getD AppLogsCfg.empty
  let http_logs := diag_logs.httpLogsConfiguration.getD HttpLogsCfg.empty
  let app_logs_enabled :=
    ((app_logs.fileSystem.getD LevelCfg.empty).level.getD "Off") != "Off" ||
    ((app_logs.azureBlobStorage.getD LevelCfg.empty).level.getD "Off") != "Off"
  let http_logs_enabled :=
    pyOrB (http_logs.fileSystem.getD EnabledCfg.empty).enabled
      ((http_logs.azureBlobStorage.getD EnabledCfg.empty).enabled.getD false)
  if !app_logs_enabled && !http_logs_enabled then
    [Finding.mk app_name "Monitoring" Finding.MEDIUM
      "Diagnostic logging not configured"
      "No application or HTTP logging is enabled, making troubleshooting difficult."
      "Enable diagnostic logs using: az webapp log config --application-logging filesystem --level information"
      "https://learn.microsoft.com/en-us/azure/app-service/troubleshoot-diagnostic-logs"]
  else []

def check_backup_configuration (app : AppService) : List Finding :=
  let app_name := app.name
  let backup := app.backupConfig.getD []
  let plan := app.appServicePlan.getD Plan.empty
  let sku := pyLowerStr ((plan.sku.getD Sku.empty).tier.getD "")
  if ["standard", "premium", "premiumv2", "premiumv3"].contains sku && backup.isEmpty then
    [Finding.mk app_name "Reliability" Finding.MEDIUM
      "Backup not configured"
      "No backup schedule configured for the App Service."
      "Configure automated backups for disaster recovery: az webapp config backup create"
      "https://learn.microsoft.com/en-us/azure/app-service/manage-backup"]
  else []

def check_deployment_slots (app : AppService) : List Finding :=
  let app_name := app.name
  let slots := app.deploymentSlots.getD []
  let plan := app.appServicePlan.getD Plan.empty
  let sku := pyLowerStr ((plan.sku.getD Sku.empty).tier.getD "")
  if ["standard", "premium", "premiumv2", "premiumv3"].contains sku && slots.isEmpty then
    [Finding.mk app_name "DevOps" Finding.LOW
      "No deployment slots configured"
      "Deployment slots enable zero-downtime deployments and easy rollback."
      "Create a staging slot: az webapp deployment slot create --slot staging"
      "https://learn.microsoft.com/en-us/azure/app-service/deploy-staging-slots"]
  else []

def check_app_service_plan (app : AppService) : List Finding :=
  let app_name := app.name
  let plan := app.appServicePlan.getD Plan.empty
  let sku := plan.sku.getD Sku.empty
  let tier := pyLowerStr (sku.tier.getD "")
  let capacity := sku.capacity.getD 1
  (if ["free", "shared"].contains tier then
    [Finding.mk app_name "Reliability" Finding.HIGH
      "Using Free or Shared tier"
      "Free/Shared tiers have limited resources, no SLA, and lack production features."
      "Upgrade to at least Basic tier for production workloads: az appservice plan update --sku B1"
      "https://learn.microsoft.com/en-us/azure/app-service/overview-hosting-plans"]
  else []) ++
  (if !(["free", "shared"].contains tier) && capacity == 1 then
    [Finding.mk app_name "Reliability" Finding.MEDIUM
      "Single instance configuration"
      "Running on a single instance - no redundancy for high availability."
      "Scale to at least 2 instances or enable autoscaling for production apps"
      "https://learn.microsoft.com/en-us/azure/app-service/manage-scale-up"]
  else []) ++
  (let zone_redundant := plan.zoneRedundant.getD false
   if ["premiumv2", "premiumv3"].contains tier && !zone_redundant then
    [Finding.mk app_name "Reliability" Finding.LOW
      "Zone redundancy not enabled"
      "Zone redundancy provides higher availability across Azure availability zones."
      "Consider enabling zone redundancy for critical production apps"
      "https://learn.microsoft.com/en-us/azure/app-service/how-to-zone-redundancy"]
  else [])

def check_vnet_integration (app : AppService) : List Finding :=
  let app_name := app.name
  let vnet := app.vnetIntegration.getD []
  if vnet.isEmpty then
    [Finding.mk app_name "Security" Finding.LOW
      "VNet integration not configured"
      "App Service is not integrated with a Virtual Network, limiting network isolation options."
      "Consider VNet integration for secure access to backend resources: az webapp vnet-integration add"
      "https://learn.microsoft.com/en-us/azure/app-service/overview-vnet-integration"]
  else []

def check_ip_restrictions (app : AppService) : List Finding :=
  let app_name := app.name
  let ip_restrictions := app.ipRestrictions.getD IpRestrictions.empty
  let main_site_rules := (ip_restrictions.ipSecurityRestrictions.getD []).filter
    (fun r => !(r.action == some "Allow") || !(r.ipAddress == some "Any"))
  let scm_rules := (ip_restrictions.scmIpSecurityRestrictions.getD []).filter
    (fun r => !(r.action == some "Allow") || !(r.ipAddress == some "Any"))
  (if main_site_rules.isEmpty then
    [Finding.mk app_name "Security" Finding.MEDIUM
      "No IP restrictions configured"
      "App Service is accessible from any IP address on the internet."
      "Configure IP restrictions to limit access: az webapp config access-restriction add"
      "https://learn.microsoft.com/en-us/azure/app-service/app-service-ip-restrictions"]
  else []) ++
  (if scm_rules.isEmpty && !(ip_restrictions.scmIpSecurityRestrictionsUseMain.getD false) then
    [Finding.mk app_name "Security" Finding.MEDIUM
      "No SCM IP restrictions configured"
      "Kudu/SCM site is accessible from any IP address."
      "Configure SCM IP restrictions or use main site restrictions: az webapp config access-restriction add --scm-site true"
      "https://learn.microsoft.com/en-us/azure/app-service/app-service-ip-restrictions"]
  else [])

def check_authentication (app : AppService) : List Finding :=
  let app_name := app.name
  let auth := app.authConfig.getD AuthConfig.empty
  let enabled := auth.enabled.getD false
  let unauthenticated_action := auth.unauthenticatedClientAction
  if !enabled then
    [Finding.mk app_name "Security" Finding.LOW
      "App Service Authentication not enabled"
      "Easy Auth/EasyAuth is not configured. Consider if authentication is needed."
      "If the app requires authentication, enable App Service Authentication: az webapp auth update --enabled true"
      "https://learn.microsoft.com/en-us/azure/app-service/overview-authentication-authorization"]
  else []

def check_custom_domain_ssl (app : AppService) : List Finding :=
  let app_name := app.name
  let domains := app.customDomains.getD []
  let ssl_certs := app.sslCertificates.getD []
  let custom_domains := domains.filter
    (fun d => !(pyEndsWith (d.hostName.getD "") ".azurewebsites.net"))
  if !custom_domains.isEmpty && ssl_certs.isEmpty then
    [Finding.mk app_name "Security" Finding.MEDIUM
      "Custom domain without SSL certificate"
      "Custom domain(s) configured but no SSL certificates found."
      "Add SSL certificates for custom domains: az webapp config ssl upload"
      "https://learn.microsoft.com/en-us/azure/app-service/configure-ssl-certificate"]
  else []

/-- The fixed deprecated-runtime pattern list. -/
def deprecated_patterns : List String :=
  ["NODE|10", "NODE|12", "NODE|14",
   "DOTNETCORE|2", "DOTNETCORE|3.0",
   "PYTHON|2", "PYTHON|3.6", "PYTHON|3.7",
   "PHP|7.0", "PHP|7.1", "PHP|7.2", "PHP|7.3",
   "JAVA|8"]

/-- The `for pattern in deprecated_patterns: ... break` loop of
`check_runtime_version`: at most one finding, for the first match. -/
def runtime_loop (app_name : Option String) (fx_version : String) : List String → List Finding
  | [] => []
  | p :: rest =>
    if strIn (pyLowerStr p) (pyLowerStr fx_version) then
      [Finding.mk app_name "Security" Finding.HIGH
        "Using deprecated or outdated runtime version"
        ("Runtime version \x27" ++ fx_version ++ "\x27 may be deprecated or lack security updates.")
        "Update to a supported runtime version: az webapp config set --linux-fx-version or --windows-fx-version"
        "https://learn.microsoft.com/en-us/azure/app-service/overview-patch-os-runtime"]
    else runtime_loop app_name fx_version rest

def check_runtime_version (app : AppService) : List Finding :=
  let app_name := app.name
  let config := app.config.getD Config.empty
  let runtime_config := app.runtimeConfig.getD RuntimeConfig.empty
  let linux_fx := pyOrS (config.linuxFxVersion.getD "") (runtime_config.linuxFxVersion.getD "")
  let windows_fx := runtime_config.windowsFxVersion.getD ""
  let fx_version := pyOrS linux_fx windows_fx
  runtime_loop app_name fx_version deprecated_patterns

def check_health_check (app : AppService) : List Finding :=
  let app_name := app.name
  let runtime_config := app.runtimeConfig.getD RuntimeConfig.empty
  let health_check_path := runtime_config.healthCheckPath.getD ""
  let plan := app.appServicePlan.getD Plan.empty
  let sku := pyLowerStr ((plan.sku.getD Sku.empty).tier.getD "")
  let capacity := (plan.sku.getD Sku.empty).capacity.getD 1
  if !(["free", "shared"].contains sku) && decide (capacity > 1) && health_check_path.isEmpty then
    [Finding.mk app_name "Reliability" Finding.MEDIUM
      "Health check not configured"
      "No health check endpoint configured for multi-instance deployment."
      "Configure health check path: az webapp config set --health-check-path /health"
      "https://learn.microsoft.com/en-us/azure/app-service/monitor-instances-health-check"]
  else []

def check_auto_heal (app : AppService) : List Finding :=
  let app_name := app.name
  let runtime_config := app.runtimeConfig.getD RuntimeConfig.empty
  let auto_heal := runtime_config.autoHealEnabled.getD false
  if !auto_heal then
    [Finding.mk app_name "Reliability" Finding.LOW
      "Auto-heal not configured"
      "Auto-heal can automatically recover from common failure scenarios."
      "Consider enabling auto-heal with appropriate triggers and actions"
      "https://learn.microsoft.com/en-us/azure/app-service/overview-diagnostics#auto-healing"]
  else []

def check_cors_configuration (app : AppService) : List Finding :=
  let app_name := app.name
  let runtime_config := app.runtimeConfig.getD RuntimeConfig.empty
  match runtime_config.cors with
  | none => []
  | some cors =>
    let allowed_origins := cors.allowedOrigins.getD []
    if allowed_origins.contains "*" then
      [Finding.mk app_name "Security" Finding.MEDIUM
        "CORS configured with wildcard (*)"
        "CORS is configured to allow all origins, which may expose the API to unauthorized access."
        "Restrict CORS to specific origins: az webapp cors remove --allowed-origins * && az webapp cors add --allowed-origins https://example.com"
        "https://learn.microsoft.com/en-us/azure/app-service/app-service-web-tutorial-rest-api"]
    else []

/-! ## Evaluation engine -/

/-- All checks for one resource, in the order `analyze` invokes them. -/
def checkAll (app : AppService) : List Finding :=
  check_tls_version app ++
  check_https_only app ++
  check_managed_identity app ++
  check_always_on app ++
  check_remote_debugging app ++
  check_ftps_state app ++
  check_http20_enabled app ++
  check_client_certificate_mode app ++
  check_diagnostic_logs app ++
  check_backup_configuration app ++
  check_deployment_slots app ++
  check_app_service_plan app ++
  check_vnet_integration app ++
  check_ip_restrictions app ++
  check_authentication app ++
  check_custom_domain_ssl app ++
  check_runtime_version app ++
  check_health_check app ++
  check_auto_heal app ++
  check_cors_configuration app

/-- `AppServiceAnalyzer.analyze`: iterate the resource records in input
order, appending each record's findings to the accumulated list. -/
def analyze (d : Snapshot) : List Finding :=
  (d.appServices.getD []).foldl (fun findings app => findings ++ checkAll app) []

/-- The rule catalog as an ordered list of rule functions (the catalog
order of the specification table). -/
def catalog : List (AppService → List Finding) :=
  [check_tls_version, check_https_only, check_managed_identity, check_always_on,
   check_remote_debugging, check_ftps_state, check_http20_enabled,
   check_client_certificate_mode, check_diagnostic_logs, check_backup_configuration,
   check_deployment_slots, check_app_service_plan, check_vnet_integration,
   check_ip_restrictions, check_authentication, check_custom_domain_ssl,
   check_runtime_version, check_health_check, check_auto_heal, check_cors_configuration]

/-- Modelled from the spec: the canonical catalog-order-within-resource-order
evaluation — every resource in input order, and for each resource every
catalog rule in fixed catalog order. -/
def evalCatalog (d : Snapshot) : List Finding :=
  (d.appServices.getD []).flatMap (fun app => catalog.flatMap (fun rule => rule app))

/-! ## Output document (`findings_data` in `main`) -/

/-- `len([f for f in findings if f.severity == s])`. -/
def countSeverity (findings : List Finding) (s : String) : Nat :=
  (findings.filter (fun f => f.severity == s)).length

/-- The serialized findings document (the wall-clock `analysisDate` field is
outside the model). -/
structure FindingsData where
  subscription : Option String
  subscriptionId : Option String
  assessmentDate : Option String
  totalFindings : Nat
  criticalCount : Nat
  highCount : Nat
  mediumCount : Nat
  lowCount : Nat
  findings : List Finding

/-- Construction of `findings_data` from the snapshot metadata and the
finding list. -/
def mkFindingsData (d : Snapshot) (findings : List Finding) : FindingsData :=
  FindingsData.mk d.subscription d.subscriptionId d.assessmentDate
    findings.length
    (countSeverity findings Finding.CRITICAL)
    (countSeverity findings Finding.HIGH)
    (countSeverity findings Finding.MEDIUM)
    (countSeverity findings Finding.LOW)
    findings

/-- Membership of a finding's severity in the closed four-element set. -/
def sevOk (f : Finding) : Bool :=
  f.severity == Finding.CRITICAL || f.severity == Finding.HIGH ||
  f.severity == Finding.MEDIUM || f.severity == Finding.LOW

/-! ## Dynamic dictionary semantics of the two cited rules

These re-run `check_ftps_state` and `check_diagnostic_logs` over raw
dictionary values with Python attribute-access behaviour (`.get` on a
non-dictionary raises), returning the titles of the appended findings or
the raised exception. -/

def check_ftps_state_dyn (app : JVal) : Except String (List String) := do
  let _app_name ← pyGet app "name"
  let tls_config ← pyGetD app "tlsConfig" (.obj [])
  let runtime_config ← pyGetD app "runtimeConfig" (.obj [])
  let t ← pyGet tls_config "ftpsState"
  let ftps_state ← if truthy t then pure t else pyGetD runtime_config "ftpsState" (.str "")
  let low ← pyLower ftps_state
  if low == "allallowed" then
    pure ["FTP is allowed (not secure)"]
  else
    pure []

def check_diagnostic_logs_dyn (app : JVal) : Except String (List String) := do
  let _app_name ← pyGet app "name"
  let diag_logs ← pyGetD app "diagnosticLogs" (.obj [])
  let app_logs ← pyGetD diag_logs "applicationLogsConfiguration" (.obj [])
  let http_logs ← pyGetD diag_logs "httpLogsConfiguration" (.obj [])
  let c1 ← do
    let afs ← pyGetD app_logs "fileSystem" (.obj [])
    let lvl ← pyGetD afs "level" (.str "Off")
    pure (!(jEqStr lvl "Off"))
  let app_logs_enabled ←
    if c1 then pure true
    else do
      let ablob ← pyGetD app_logs "azureBlobStorage" (.obj [])
      let lvl ← pyGetD ablob "level" (.str "Off")
      pure (!(jEqStr lvl "Off"))
  let h1 ← do
    let hfs ← pyGetD http_logs "fileSystem" (.obj [])
    pyGetD hfs "enabled" (.bool false)
  let http_logs_enabled ←
    if truthy h1 then pure h1
    else do
      let hblob ← pyGetD http_logs "azureBlobStorage" (.obj [])
      pyGetD hblob "enabled" (.bool false)
  if !app_logs_enabled && !(truthy http_logs_enabled) then
    pure ["Diagnostic logging not configured"]
  else
    pure []

/-! ## Serialization of the typed model into dynamic values -/

/-- Serialize an optional field: absent options contribute no key. -/
def optField (k : String) : Option JVal → List (String × JVal)
  | some v => [(k, v)]
  | none => []

def jStr (s : String) : JVal := .str s
def jBool (b : Bool) : JVal := .bool b

def TlsConfig.toJVal (c : TlsConfig) : JVal :=
  .obj (optField "minTlsVersion" (c.minTlsVersion.map jStr) ++
        optField "alwaysOn" (c.alwaysOn.map jBool) ++
        optField "remoteDebuggingEnabled" (c.remoteDebuggingEnabled.map jBool) ++
        optField "ftpsState" (c.ftpsState.map jStr) ++
        optField "http20Enabled" (c.http20Enabled.map jBool))

def Cors.toJVal (c : Cors) : JVal :=
  .obj (optField "allowedOrigins" (c.allowedOrigins.map (fun l => .arr (l.map jStr))))

def RuntimeConfig.toJVal (c : RuntimeConfig) : JVal :=
  .obj (optField "alwaysOn" (c.alwaysOn.map jBool) ++
        optField "remoteDebuggingEnabled" (c.remoteDebuggingEnabled.map jBool) ++
        optField "ftpsState" (c.ftpsState.map jStr) ++
        optField "http20Enabled" (c.http20Enabled.map jBool) ++
        optField "linuxFxVersion" (c.linuxFxVersion.map jStr) ++
        optField "windowsFxVersion" (c.windowsFxVersion.map jStr) ++
        optField "healthCheckPath" (c.healthCheckPath.map jStr) ++
        optField "autoHealEnabled" (c.autoHealEnabled.map jBool) ++
        optField "cors" (c.cors.map Cors.toJVal))

def Config.toJVal (c : Config) : JVal :=
  .obj (optField "httpsOnly" (c.httpsOnly.map jBool) ++
        optField "clientCertEnabled" (c.clientCertEnabled.map jBool) ++
        optField "clientCertMode" (c.clientCertMode.map jStr) ++
        optField "linuxFxVersion" (c.linuxFxVersion.map jStr))

def Identity.toJVal (c : Identity) : JVal :=
  .obj (optField "type" (c.type.map jStr))

def LevelCfg.toJVal (c : LevelCfg) : JVal :=
  .obj (optField "level" (c.level.map jStr))

def EnabledCfg.toJVal (c : EnabledCfg) : JVal :=
  .obj (optField "enabled" (c.enabled.map jBool))

def AppLogsCfg.toJVal (c : AppLogsCfg) : JVal :=
  .obj (optField "fileSystem" (c.fileSystem.map LevelCfg.toJVal) ++
        optField "azureBlobStorage" (c.azureBlobStorage.map LevelCfg.toJVal))

def HttpLogsCfg.toJVal (c : HttpLogsCfg) : JVal :=
  .obj (optField "fileSystem" (c.fileSystem.map EnabledCfg.toJVal) ++
        optField "azureBlobStorage" (c.azureBlobStorage.map EnabledCfg.toJVal))

def DiagLogs.toJVal (c : DiagLogs) : JVal :=
  .obj (optField "applicationLogsConfiguration" (c.applicationLogsConfiguration.map AppLogsCfg.toJVal) ++
        optField "httpLogsConfiguration" (c.httpLogsConfiguration.map HttpLogsCfg.toJVal))

def Sku.toJVal (c : Sku) : JVal :=
  .obj (optField "tier" (c.tier.map jStr) ++
        optField "capacity" (c.capacity.map JVal.num))

def Plan.toJVal (c : Plan) : JVal :=
  .obj (optField "sku" (c.sku.map Sku.toJVal) ++
        optField "zoneRedundant" (c.zoneRedundant.map jBool))

def IpRule.toJVal (c : IpRule) : JVal :=
  .obj (optField "action" (c.action.map jStr) ++
        optField "ipAddress" (c.ipAddress.map jStr))

def IpRestrictions.toJVal (c : IpRestrictions) : JVal :=
  .obj (optField "ipSecurityRestrictions" (c.ipSecurityRestrictions.map (fun l => .arr (l.map IpRule.toJVal))) ++
        optField "scmIpSecurityRestrictions" (c.scmIpSecurityRestrictions.map (fun l => .arr (l.map IpRule.toJVal))) ++
        optField "scmIpSecurityRestrictionsUseMain" (c.scmIpSecurityRestrictionsUseMain.map jBool))

def Domain.toJVal (c : Domain) : JVal :=
  .obj (optField "hostName" (c.hostName.map jStr))

def AuthConfig.toJVal (c : AuthConfig) : JVal :=
  .obj (optField "enabled" (c.enabled.map jBool) ++
        optField "unauthenticatedClientAction" (c.unauthenticatedClientAction.map jStr))

def AppService.toJVal (a : AppService) : JVal :=
  .obj (optField "name" (a.name.map jStr) ++
        optField "tlsConfig" (a.tlsConfig.map TlsConfig.toJVal) ++
        optField "config" (a.config.map Config.toJVal) ++
        optField "identity" (a.identity.map Identity.toJVal) ++
        optField "runtimeConfig" (a.runtimeConfig.map RuntimeConfig.toJVal) ++
        optField "appServicePlan" (a.appServicePlan.map Plan.toJVal) ++
        optField "diagnosticLogs" (a.diagnosticLogs.map DiagLogs.toJVal) ++
        optField "backupConfig" (a.backupConfig.map JVal.arr) ++
        optField "deploymentSlots" (a.deploymentSlots.map JVal.arr) ++
        optField "vnetIntegration" (a.vnetIntegration.map JVal.arr) ++
        optField "ipRestrictions" (a.ipRestrictions.map IpRestrictions.toJVal) ++
        optField "authConfig" (a.authConfig.map AuthConfig.toJVal) ++
        optField "customDomains" (a.customDomains.map (fun l => .arr (l.map Domain.toJVal))) ++
        optField "sslCertificates" (a.sslCertificates.map JVal.arr))

/-! ## Derived counting views used by the claims -/

/-- Number of findings in a list carrying a given title. -/
def countTitle (fs : List Finding) (t : String) : Nat :=
  (fs.filter (fun f => f.title == t)).length

/-- Number of findings in a list carrying a given title, category and
severity simultaneously. -/
def countMatch (fs : List Finding) (t cat sev : String) : Nat :=
  (fs.filter (fun f => f.title == t && f.category == cat && f.severity == sev)).length

/-- The runtime/framework version string the analyzer inspects: linux FX
from `config` or `runtimeConfig`, else windows FX from `runtimeConfig`. -/
def fxVersion (app : AppService) : String :=
  pyOrS
    (pyOrS ((app.config.getD Config.empty).linuxFxVersion.getD "")
      ((app.runtimeConfig.getD RuntimeConfig.empty).linuxFxVersion.getD ""))
    ((app.runtimeConfig.getD RuntimeConfig.empty).windowsFxVersion.getD "")

/-- A record on tier "Free" with every other field absent. -/
def freeTierApp : AppService :=
  AppService.mk none none none none none
    (some (Plan.mk (some (Sku.mk (some "Free") none)) none))
    none none none none none none none none

/-- A record whose CORS allowed-origins list contains the wildcard next to
an ordinary origin. -/
def corsApp : AppService :=
  AppService.mk none none none none
    (some (RuntimeConfig.mk none none none none none none none none
      (some (Cors.mk (some ["*", "https://a.com"])))))
    none none none none none none none none none

/-- A record running a deprecated runtime. -/
def nodeApp : AppService :=
  AppService.mk none none none none
    (some (RuntimeConfig.mk none none none none (some "NODE|10") none none none none))
    none none none none none none none none none

/-! ## Engine lemmas -/

theorem foldl_append_eq_flatMap {α β : Type} (f : α → List β) (l : List α) (init : List β) :
    l.foldl (fun acc x => acc ++ f x) init = init ++ l.flatMap f := by
  induction l generalizing init with
  | nil => simp
  | cons h t ih => simp [ih, List.flatMap_cons]

theorem analyze_eq_flatMap (d : Snapshot) :
    analyze d = (d.appServices.getD []).flatMap checkAll := by
  simpa [analyze] using foldl_append_eq_flatMap checkAll (d.appServices.getD []) []

theorem checkAll_eq_catalog (app : AppService) :
    checkAll app = catalog.flatMap (fun rule => rule app) := by
  simp [catalog, checkAll, List.flatMap_cons, List.flatMap_nil, List.append_assoc]

/-- C2: the engine evaluates resources in input order and, within each
resource, applies the rules in the fixed catalog order; the output finding
list is exactly the catalog-order-within-resource-order flattening. -/
theorem analyze_catalog_order (d : Snapshot) :
    analyze d = evalCatalog d := by
  rw [analyze_eq_flatMap, evalCatalog]
  exact List.flatMap_congr (fun app _ => checkAll_eq_catalog app)

/-- C7: a snapshot whose resource collection is absent or empty yields an
empty finding list, total count zero, and all four severity tallies zero. -/
theorem empty_snapshot_empty_result (d : Snapshot)
    (h : d.appServices = none ∨ d.appServices = some []) :
    (mkFindingsData d (analyze d)).findings = [] ∧
    (mkFindingsData d (analyze d)).totalFindings = 0 ∧
    (mkFindingsData d (analyze d)).criticalCount = 0 ∧
    (mkFindingsData d (analyze d)).highCount = 0 ∧
    (mkFindingsData d (analyze d)).mediumCount = 0 ∧
    (mkFindingsData d (analyze d)).lowCount = 0 := by
  have hnil : d.appServices.getD [] = [] := by rcases h with h | h <;> simp [h]
  have he : analyze d = [] := by rw [analyze_eq_flatMap, hnil]; rfl
  simp [mkFindingsData, he, countSeverity]

/-- C7 witness: the theorem applied to the concrete all-absent snapshot. -/
theorem empty_snapshot_empty_result_witness :
    ((Snapshot.mk none none none none).appServices = none ∨
      (Snapshot.mk none none none none).appServices = some []) ∧
    (mkFindingsData (Snapshot.mk none none none none)
        (analyze (Snapshot.mk none none none none))).findings = [] :=
  ⟨Or.inl rfl, (empty_snapshot_empty_result (Snapshot.mk none none none none) (Or.inl rfl)).1⟩

/-- C10: two records that agree everywhere except the authentication
configuration's `unauthenticatedClientAction` field produce identical
finding lists — the field is read but never influences the output. -/
theorem unauthenticated_action_noninterference
    (name : Option String) (tc : Option TlsConfig) (cfg : Option Config)
    (idn : Option Identity) (rc : Option RuntimeConfig) (plan : Option Plan)
    (dl : Option DiagLogs) (bc ds vn : Option (List JVal))
    (ipr : Option IpRestrictions) (en : Option Bool) (u1 u2 : Option String)
    (cd : Option (List Domain)) (ssl : Option (List JVal)) :
    checkAll (AppService.mk name tc cfg idn rc plan dl bc ds vn ipr
        (some (AuthConfig.mk en u1)) cd ssl) =
    checkAll (AppService.mk name tc cfg idn rc plan dl bc ds vn ipr
        (some (AuthConfig.mk en u2)) cd ssl) := rfl

/-- C1 counterexample: on the all-absent record the Always-On finding DOES
fire (the default tier is the empty string, which is not in the free/shared
gate set), contradicting the claim that it does not. -/
theorem empty_record_always_on_fires :
    countTitle (checkAll emptyApp) "Always On is not enabled" = 1 := by decide

/-! ## Severity tally machinery -/

theorem all_sevOk_append {l₁ l₂ : List Finding}
    (h₁ : l₁.all sevOk = true) (h₂ : l₂.all sevOk = true) :
    (l₁ ++ l₂).all sevOk = true := by
  simp [List.all_append, h₁, h₂]

theorem all_sevOk_ite {c : Prop} [Decidable c] {l₁ l₂ : List Finding}
    (h₁ : l₁.all sevOk = true) (h₂ : l₂.all sevOk = true) :
    (if c then l₁ else l₂).all sevOk = true := by
  split <;> assumption

/-- Closed form of the deprecated-pattern loop: one fixed finding when any
pattern matches case-insensitively, nothing otherwise. -/
theorem runtime_loop_eq (n : Option String) (fx : String) (pats : List String) :
    runtime_loop n fx pats =
      (if pats.any (fun p => strIn (pyLowerStr p) (pyLowerStr fx)) then
        [Finding.mk n "Security" Finding.HIGH
          "Using deprecated or outdated runtime version"
          ("Runtime version \x27" ++ fx ++ "\x27 may be deprecated or lack security updates.")
          "Update to a supported runtime version: az webapp config set --linux-fx-version or --windows-fx-version"
          "https://learn.microsoft.com/en-us/azure/app-service/overview-patch-os-runtime"]
      else []) := by
  induction pats with
  | nil => rfl
  | cons p rest ih =>
    simp only [runtime_loop, List.any_cons, ih]
    by_cases hp : strIn (pyLowerStr p) (pyLowerStr fx) = true <;> simp [hp]

theorem all_sevOk_runtime_loop (n : Option String) (fx : String) (pats : List String) :
    (runtime_loop n fx pats).all sevOk = true := by
  rw [runtime_loop_eq]
  exact all_sevOk_ite rfl rfl

theorem sevOk_check_tls (app : AppService) : (check_tls_version app).all sevOk = true := by
  unfold check_tls_version; exact all_sevOk_ite rfl rfl

theorem sevOk_check_https (app : AppService) : (check_https_only app).all sevOk = true := by
  unfold check_https_only; exact all_sevOk_ite rfl rfl

theorem sevOk_check_identity (app : AppService) : (check_managed_identity app).all sevOk = true := by
  unfold check_managed_identity; exact all_sevOk_ite rfl rfl

theorem sevOk_check_always_on (app : AppService) : (check_always_on app).all sevOk = true := by
  unfold check_always_on; exact all_sevOk_ite rfl rfl

theorem sevOk_check_remote (app : AppService) : (check_remote_debugging app).all sevOk = true := by
  unfold check_remote_debugging; exact all_sevOk_ite rfl rfl

theorem sevOk_check_ftps (app : AppService) : (check_ftps_state app).all sevOk = true := by
  unfold check_ftps_state; exact all_sevOk_ite rfl rfl

theorem sevOk_check_http20 (app : AppService) : (check_http20_enabled app).all sevOk = true := by
  unfold check_http20_enabled; exact all_sevOk_ite rfl rfl

theorem sevOk_check_client_cert (app : AppService) :
    (check_client_certificate_mode app).all sevOk = true := by
  unfold check_client_certificate_mode; exact all_sevOk_ite rfl rfl

theorem sevOk_check_diag (app : AppService) : (check_diagnostic_logs app).all sevOk = true := by
  unfold check_diagnostic_logs; exact all_sevOk_ite rfl rfl

theorem sevOk_check_backup (app : AppService) :
    (check_backup_configuration app).all sevOk = true := by
  unfold check_backup_configuration; exact all_sevOk_ite rfl rfl

theorem sevOk_check_slots (app : AppService) : (check_deployment_slots app).all sevOk = true := by
  unfold check_deployment_slots; exact all_sevOk_ite rfl rfl

theorem sevOk_check_plan (app : AppService) : (check_app_service_plan app).all sevOk = true := by
  simp only [check_app_service_plan]
  refine all_sevOk_append (all_sevOk_append ?_ ?_) ?_ <;> exact all_sevOk_ite rfl rfl

theorem sevOk_check_vnet (app : AppService) : (check_vnet_integration app).all sevOk = true := by
  unfold check_vnet_integration; exact all_sevOk_ite rfl rfl

theorem sevOk_check_ip (app : AppService) : (check_ip_restrictions app).all sevOk = true := by
  unfold check_ip_restrictions
  refine all_sevOk_append ?_ ?_ <;> exact all_sevOk_ite rfl rfl

theorem sevOk_check_auth (app : AppService) : (check_authentication app).all sevOk = true := by
  unfold check_authentication; exact all_sevOk_ite rfl rfl

theorem sevOk_check_ssl (app : AppService) : (check_custom_domain_ssl app).all sevOk = true := by
  unfold check_custom_domain_ssl; exact all_sevOk_ite rfl rfl

theorem sevOk_check_runtime (app : AppService) : (check_runtime_version app).all sevOk = true := by
  unfold check_runtime_version; apply all_sevOk_runtime_loop

theorem sevOk_check_health (app : AppService) : (check_health_check app).all sevOk = true := by
  unfold check_health_check; exact all_sevOk_ite rfl rfl

theorem sevOk_check_auto_heal (app : AppService) : (check_auto_heal app).all sevOk = true := by
  unfold check_auto_heal; exact all_sevOk_ite rfl rfl

theorem sevOk_check_cors (app : AppService) :
    (check_cors_configuration app).all sevOk = true := by
  unfold check_cors_configuration
  rcases hc : (app.runtimeConfig.getD RuntimeConfig.empty).cors with _ | c <;> simp only [hc]
  · rfl
  · exact all_sevOk_ite rfl rfl

/-- Every finding any rule emits carries one of the four catalog
severities. -/
theorem checkAll_all_sevOk (app : AppService) : (checkAll app).all sevOk = true := by
  unfold checkAll
  refine all_sevOk_append ?_ (sevOk_check_cors app)
  refine all_sevOk_append ?_ (sevOk_check_auto_heal app)
  refine all_sevOk_append ?_ (sevOk_check_health app)
  refine all_sevOk_append ?_ (sevOk_check_runtime app)
  refine all_sevOk_append ?_ (sevOk_check_ssl app)
  refine all_sevOk_append ?_ (sevOk_check_auth app)
  refine all_sevOk_append ?_ (sevOk_check_ip app)
  refine all_sevOk_append ?_ (sevOk_check_vnet app)
  refine all_sevOk_append ?_ (sevOk_check_plan app)
  refine all_sevOk_append ?_ (sevOk_check_slots app)
  refine all_sevOk_append ?_ (sevOk_check_backup app)
  refine all_sevOk_append ?_ (sevOk_check_diag app)
  refine all_sevOk_append ?_ (sevOk_check_client_cert app)
  refine all_sevOk_append ?_ (sevOk_check_http20 app)
  refine all_sevOk_append ?_ (sevOk_check_ftps app)
  refine all_sevOk_append ?_ (sevOk_check_remote app)
  refine all_sevOk_append ?_ (sevOk_check_always_on app)
  refine all_sevOk_append ?_ (sevOk_check_identity app)
  refine all_sevOk_append ?_ (sevOk_check_https app)
  exact sevOk_check_tls app

theorem all_sevOk_flatMap (l : List AppService) :
    (l.flatMap checkAll).all sevOk = true := by
  induction l with
  | nil => rfl
  | cons h t ih =>
    simp only [List.flatMap_cons]
    exact all_sevOk_append (checkAll_all_sevOk h) ih

/-- When every severity is drawn from the closed four-element set, the four
severity counts partition the list. -/
theorem count_four_of_all_sevOk (fs : List Finding) (h : fs.all sevOk = true) :
    countSeverity fs Finding.CRITICAL + countSeverity fs Finding.HIGH +
      countSeverity fs Finding.MEDIUM + countSeverity fs Finding.LOW = fs.length := by
  induction fs with
  | nil => rfl
  | cons f t ih =>
    rw [List.all_cons, Bool.and_eq_true] at h
    obtain ⟨hf, ht⟩ := h
    have iht := ih ht
    have hf4 : f.severity = Finding.CRITICAL ∨ f.severity = Finding.HIGH ∨
        f.severity = Finding.MEDIUM ∨ f.severity = Finding.LOW := by
      simpa [sevOk, Bool.or_eq_true, beq_iff_eq, or_assoc] using hf
    rcases hf4 with h1 | h1 | h1 | h1 <;>
      simp [countSeverity, List.filter_cons, h1, Finding.CRITICAL, Finding.HIGH,
        Finding.MEDIUM, Finding.LOW] at iht ⊢ <;>
      omega

/-- C3: for the produced findings document, the four severity-tally counts
sum to the total finding count, which is the length of the finding list,
and every finding carries one of the four severities. -/
theorem tally_invariant (d : Snapshot) :
    (mkFindingsData d (analyze d)).criticalCount + (mkFindingsData d (analyze d)).highCount +
      (mkFindingsData d (analyze d)).mediumCount + (mkFindingsData d (analyze d)).lowCount =
      (mkFindingsData d (analyze d)).totalFindings ∧
    (mkFindingsData d (analyze d)).totalFindings = (mkFindingsData d (analyze d)).findings.length ∧
    ((mkFindingsData d (analyze d)).findings.all sevOk) = true := by
  have hall : (analyze d).all sevOk = true := by
    rw [analyze_eq_flatMap]; exact all_sevOk_flatMap _
  exact ⟨count_four_of_all_sevOk (analyze d) hall, rfl, hall⟩

/-- C1 (amended): the all-absent record yields exactly these findings, in
catalog order: TLS, HTTPS-only, managed identity, Always-On, HTTP/2,
diagnostic logs, single-instance, VNet, IP restrictions (main and SCM),
authentication and auto-heal fire, while deployment-slots, backup and
health-check (and all others) do not. -/
theorem empty_record_findings :
    (checkAll emptyApp).map (fun f => (f.title, f.severity)) =
      [("Minimum TLS version not set to 1.2 or higher", "Critical"),
       ("HTTPS Only not enforced", "High"),
       ("Managed Identity not enabled", "Medium"),
       ("Always On is not enabled", "Medium"),
       ("HTTP/2 not enabled", "Low"),
       ("Diagnostic logging not configured", "Medium"),
       ("Single instance configuration", "Medium"),
       ("VNet integration not configured", "Low"),
       ("No IP restrictions configured", "Medium"),
       ("No SCM IP restrictions configured", "Medium"),
       ("App Service Authentication not enabled", "Low"),
       ("Auto-heal not configured", "Low")] := by decide

/-! ## Per-title counting machinery -/

theorem countTitle_eq_countP (fs : List Finding) (t : String) :
    countTitle fs t = fs.countP (fun f => f.title == t) :=
  (List.countP_eq_length_filter _ _).symm

theorem countMatch_eq_countP (fs : List Finding) (t c s : String) :
    countMatch fs t c s =
      fs.countP (fun f => f.title == t && f.category == c && f.severity == s) :=
  (List.countP_eq_length_filter _ _).symm

theorem countP_ite_singleton (p : Finding → Bool) (c : Prop) [Decidable c] (f : Finding) :
    (if c then [f] else []).countP p = if c then (if p f then 1 else 0) else 0 := by
  split <;> simp [List.countP_cons]

/-- C5: the TLS rule fires exactly once (with Critical severity and
Security category) on every record whose minimum TLS version is absent or
lexicographically below "1.2", and never on a record whose minimum TLS
version is "1.2" or higher. -/
theorem tls_rule_exact (app : AppService) :
    (((app.tlsConfig.getD TlsConfig.empty).minTlsVersion = none ∨
      (∃ s, (app.tlsConfig.getD TlsConfig.empty).minTlsVersion = some s ∧
        pyStrLt s "1.2" = true)) →
      countTitle (checkAll app) "Minimum TLS version not set to 1.2 or higher" = 1 ∧
      countMatch (checkAll app) "Minimum TLS version not set to 1.2 or higher"
        "Security" "Critical" = 1) ∧
    (∀ s, (app.tlsConfig.getD TlsConfig.empty).minTlsVersion = some s →
      pyStrLt s "1.2" = false →
      countTitle (checkAll app) "Minimum TLS version not set to 1.2 or higher" = 0) := by
  constructor
  · intro h
    rcases hcors : (app.runtimeConfig.getD RuntimeConfig.empty).cors with _ | c <;>
    rcases h with h | ⟨s, hs, hlt⟩ <;>
    constructor <;>
    · simp only [countTitle_eq_countP, countMatch_eq_countP, checkAll, List.countP_append]
      simp [check_tls_version, check_https_only, check_managed_identity, check_always_on,
        check_remote_debugging, check_ftps_state, check_http20_enabled,
        check_client_certificate_mode, check_diagnostic_logs, check_backup_configuration,
        check_deployment_slots, check_app_service_plan, check_vnet_integration,
        check_ip_restrictions, check_authentication, check_custom_domain_ssl,
        check_runtime_version, check_health_check, check_auto_heal,
        check_cors_configuration, runtime_loop_eq, countP_ite_singleton,
        List.countP_cons, List.countP_nil, pyFalsyS, Finding.CRITICAL, Finding.HIGH,
        Finding.MEDIUM, Finding.LOW, *]
  · intro s hs hlt
    have hne : s.isEmpty = false := by
      cases hs2 : s.isEmpty
      · rfl
      · have hse : s = "" := (String.isEmpty_iff s).mp hs2
        rw [hse] at hlt
        simp [pyStrLt, listLt] at hlt
    rcases hcors : (app.runtimeConfig.getD RuntimeConfig.empty).cors with _ | c <;>
    · simp only [countTitle_eq_countP, checkAll, List.countP_append]
      simp [check_tls_version, check_https_only, check_managed_identity, check_always_on,
        check_remote_debugging, check_ftps_state, check_http20_enabled,
        check_client_certificate_mode, check_diagnostic_logs, check_backup_configuration,
        check_deployment_slots, check_app_service_plan, check_vnet_integration,
        check_ip_restrictions, check_authentication, check_custom_domain_ssl,
        check_runtime_version, check_health_check, check_auto_heal,
        check_cors_configuration, runtime_loop_eq, countP_ite_singleton,
        List.countP_cons, List.countP_nil, pyFalsyS, Finding.CRITICAL, Finding.HIGH,
        Finding.MEDIUM, Finding.LOW, *]

/-- C5 witness: the theorem applied to the all-absent record, whose minimum
TLS version is absent. -/
theorem tls_rule_exact_witness :
    (emptyApp.tlsConfig.getD TlsConfig.empty).minTlsVersion = none ∧
    countTitle (checkAll emptyApp) "Minimum TLS version not set to 1.2 or higher" = 1 :=
  ⟨rfl, ((tls_rule_exact emptyApp).1 (Or.inl rfl)).1⟩

/-- C6: a record whose hosting-plan tier is "free" (case-insensitively)
receives the Plan-tier finding (High, Reliability) exactly once, and the
Always-On, Single-instance, Backup, Deployment-slots and Health-check
findings are never emitted for it, whatever its other fields hold. -/
theorem free_tier_gating (app : AppService)
    (h : pyLowerStr (((app.appServicePlan.getD Plan.empty).sku.getD Sku.empty).tier.getD "") =
      "free") :
    countTitle (checkAll app) "Using Free or Shared tier" = 1 ∧
    countMatch (checkAll app) "Using Free or Shared tier" "Reliability" "High" = 1 ∧
    countTitle (checkAll app) "Always On is not enabled" = 0 ∧
    countTitle (checkAll app) "Single instance configuration" = 0 ∧
    countTitle (checkAll app) "Backup not configured" = 0 ∧
    countTitle (checkAll app) "No deployment slots configured" = 0 ∧
    countTitle (checkAll app) "Health check not configured" = 0 := by
  refine ⟨?_, ?_, ?_, ?_, ?_, ?_, ?_⟩ <;>
  · rcases hcors : (app.runtimeConfig.getD RuntimeConfig.empty).cors with _ | c <;>
    · simp only [countTitle_eq_countP, countMatch_eq_countP, checkAll, List.countP_append]
      simp [check_tls_version, check_https_only, check_managed_identity, check_always_on,
        check_remote_debugging, check_ftps_state, check_http20_enabled,
        check_client_certificate_mode, check_diagnostic_logs, check_backup_configuration,
        check_deployment_slots, check_app_service_plan, check_vnet_integration,
        check_ip_restrictions, check_authentication, check_custom_domain_ssl,
        check_runtime_version, check_health_check, check_auto_heal,
        check_cors_configuration, runtime_loop_eq, countP_ite_singleton,
        List.countP_cons, List.countP_nil, pyFalsyS, Finding.CRITICAL, Finding.HIGH,
        Finding.MEDIUM, Finding.LOW, h, hcors]

/-- C6 witness: the theorem applied to a concrete record on tier "Free". -/
theorem free_tier_gating_witness :
    pyLowerStr (((freeTierApp.appServicePlan.getD Plan.empty).sku.getD Sku.empty).tier.getD "") =
      "free" ∧
    countTitle (checkAll freeTierApp) "Using Free or Shared tier" = 1 :=
  ⟨by decide, (free_tier_gating freeTierApp (by decide)).1⟩

/-- C8: with a CORS configuration present whose allowed-origins list
contains the wildcard, the CORS rule fires exactly once (Medium, Security),
even when other origins are listed; with the CORS configuration absent, no
CORS finding is emitted. -/
theorem cors_rule_exact (app : AppService) :
    (∀ c, (app.runtimeConfig.getD RuntimeConfig.empty).cors = some c →
      (c.allowedOrigins.getD []).contains "*" = true →
      countTitle (checkAll app) "CORS configured with wildcard (*)" = 1 ∧
      countMatch (checkAll app) "CORS configured with wildcard (*)" "Security" "Medium" = 1) ∧
    ((app.runtimeConfig.getD RuntimeConfig.empty).cors = none →
      countTitle (checkAll app) "CORS configured with wildcard (*)" = 0) := by
  constructor
  · intro c hc hw
    have hw2 : "*" ∈ c.allowedOrigins.getD [] := by simpa using hw
    constructor <;>
    · simp only [countTitle_eq_countP, countMatch_eq_countP, checkAll, List.countP_append]
      simp [check_tls_version, check_https_only, check_managed_identity, check_always_on,
        check_remote_debugging, check_ftps_state, check_http20_enabled,
        check_client_certificate_mode, check_diagnostic_logs, check_backup_configuration,
        check_deployment_slots, check_app_service_plan, check_vnet_integration,
        check_ip_restrictions, check_authentication, check_custom_domain_ssl,
        check_runtime_version, check_health_check, check_auto_heal,
        check_cors_configuration, runtime_loop_eq, countP_ite_singleton,
        List.countP_cons, List.countP_nil, pyFalsyS, Finding.CRITICAL, Finding.HIGH,
        Finding.MEDIUM, Finding.LOW, hc, hw2]
  · intro hc
    simp only [countTitle_eq_countP, checkAll, List.countP_append]
    simp [check_tls_version, check_https_only, check_managed_identity, check_always_on,
        check_remote_debugging, check_ftps_state, check_http20_enabled,
        check_client_certificate_mode, check_diagnostic_logs, check_backup_configuration,
        check_deployment_slots, check_app_service_plan, check_vnet_integration,
        check_ip_restrictions, check_authentication, check_custom_domain_ssl,
        check_runtime_version, check_health_check, check_auto_heal,
        check_cors_configuration, runtime_loop_eq, countP_ite_singleton,
        List.countP_cons, List.countP_nil, pyFalsyS, Finding.CRITICAL, Finding.HIGH,
        Finding.MEDIUM, Finding.LOW, hc]

/-- C8 witness: the theorem applied to a concrete record whose
allowed-origins list is the wildcard next to an ordinary origin. -/
theorem cors_rule_exact_witness :
    (corsApp.runtimeConfig.getD RuntimeConfig.empty).cors =
      some (Cors.mk (some ["*", "https://a.com"])) ∧
    countTitle (checkAll corsApp) "CORS configured with wildcard (*)" = 1 :=
  ⟨rfl, ((cors_rule_exact corsApp).1 (Cors.mk (some ["*", "https://a.com"])) rfl (by decide)).1⟩

/-- C9: the runtime-version rule fires exactly once (High, Security) when
the inspected runtime string case-insensitively contains any deprecated
pattern — never more than once, even when several patterns match — and not
at all when no pattern matches. -/
theorem runtime_rule_exact (app : AppService) :
    (deprecated_patterns.any
        (fun p => strIn (pyLowerStr p) (pyLowerStr (fxVersion app))) = true →
      countTitle (checkAll app) "Using deprecated or outdated runtime version" = 1 ∧
      countMatch (checkAll app) "Using deprecated or outdated runtime version"
        "Security" "High" = 1) ∧
    (deprecated_patterns.any
        (fun p => strIn (pyLowerStr p) (pyLowerStr (fxVersion app))) = false →
      countTitle (checkAll app) "Using deprecated or outdated runtime version" = 0) := by
  constructor
  · intro h
    simp only [fxVersion] at h
    constructor <;>
    · rcases hcors : (app.runtimeConfig.getD RuntimeConfig.empty).cors with _ | c <;>
      · simp only [countTitle_eq_countP, countMatch_eq_countP, checkAll, List.countP_append,
          check_runtime_version, runtime_loop_eq]
        rw [h]
        simp [check_tls_version, check_https_only, check_managed_identity, check_always_on,
        check_remote_debugging, check_ftps_state, check_http20_enabled,
        check_client_certificate_mode, check_diagnostic_logs, check_backup_configuration,
        check_deployment_slots, check_app_service_plan, check_vnet_integration,
        check_ip_restrictions, check_authentication, check_custom_domain_ssl,
        check_runtime_version, check_health_check, check_auto_heal,
        check_cors_configuration, runtime_loop_eq, countP_ite_singleton,
        List.countP_cons, List.countP_nil, pyFalsyS, Finding.CRITICAL, Finding.HIGH,
        Finding.MEDIUM, Finding.LOW, hcors]
  · intro h
    simp only [fxVersion] at h
    rcases hcors : (app.runtimeConfig.getD RuntimeConfig.empty).cors with _ | c <;>
    · simp only [countTitle_eq_countP, checkAll, List.countP_append,
        check_runtime_version, runtime_loop_eq]
      rw [h]
      simp [check_tls_version, check_https_only, check_managed_identity, check_always_on,
        check_remote_debugging, check_ftps_state, check_http20_enabled,
        check_client_certificate_mode, check_diagnostic_logs, check_backup_configuration,
        check_deployment_slots, check_app_service_plan, check_vnet_integration,
        check_ip_restrictions, check_authentication, check_custom_domain_ssl,
        check_runtime_version, check_health_check, check_auto_heal,
        check_cors_configuration, runtime_loop_eq, countP_ite_singleton,
        List.countP_cons, List.countP_nil, pyFalsyS, Finding.CRITICAL, Finding.HIGH,
        Finding.MEDIUM, Finding.LOW, hcors]

/-- C9 witness: the theorem applied to a concrete record running
"NODE|10". -/
theorem runtime_rule_exact_witness :
    deprecated_patterns.any
      (fun p => strIn (pyLowerStr p) (pyLowerStr (fxVersion nodeApp))) = true ∧
    countTitle (checkAll nodeApp) "Using deprecated or outdated runtime version" = 1 :=
  ⟨by decide, ((runtime_rule_exact nodeApp).1 (by decide)).1⟩

/-! ## C4: totality under the dynamic dictionary semantics -/

theorem lookupKey_optField_ne (k1 k2 : String) (v : Option JVal)
    (rest : List (String × JVal)) (h : (k1 == k2) = false) :
    lookupKey (optField k1 v ++ rest) k2 = lookupKey rest k2 := by
  cases v <;> simp [optField, lookupKey, h]

theorem lookupKey_optField_last (k1 k2 : String) (v : Option JVal) (h : (k1 == k2) = false) :
    lookupKey (optField k1 v) k2 = none := by
  cases v <;> simp [optField, lookupKey, h]

theorem lookupKey_optField_eq (k : String) (v : Option JVal) (rest : List (String × JVal)) :
    lookupKey (optField k v ++ rest) k =
      (match v with
      | some j => some j
      | none => lookupKey rest k) := by
  cases v <;> simp [optField, lookupKey]

theorem exceptBind_ok {e a b : Type} (x : a) (f : a → Except e b) :
    ((Except.ok x : Except e a) >>= f) = f x := rfl

theorem exceptPure {e a : Type} (x : a) : (pure x : Except e a) = Except.ok x := rfl

theorem ftps_dyn_corr (app : AppService) :
    check_ftps_state_dyn (AppService.toJVal app) =
      .ok ((check_ftps_state app).map (fun f => f.title)) := by
  obtain ⟨nm, tc, cfg, idn, rc, pl, dl, bc, ds, vn, ipr, au, cd, sc⟩ := app
  cases tc with
  | none =>
    cases rc with
    | none =>
      simp [check_ftps_state_dyn, check_ftps_state, AppService.toJVal, TlsConfig.toJVal,
        RuntimeConfig.toJVal, Cors.toJVal, List.append_assoc, lookupKey_optField_ne,
        lookupKey_optField_eq, lookupKey_optField_last, lookupKey, pyGet, pyGetD, pyLower,
        truthy, pyOrSO, jStr, jBool, exceptBind_ok, exceptPure, TlsConfig.empty,
        RuntimeConfig.empty] <;> try (split <;> rfl)
    | some r =>
      obtain ⟨ao, rd, fs, h2, lx, wx, hc, ah, co⟩ := r
      cases fs <;> simp [check_ftps_state_dyn, check_ftps_state, AppService.toJVal, TlsConfig.toJVal,
        RuntimeConfig.toJVal, Cors.toJVal, List.append_assoc, lookupKey_optField_ne,
        lookupKey_optField_eq, lookupKey_optField_last, lookupKey, pyGet, pyGetD, pyLower,
        truthy, pyOrSO, jStr, jBool, exceptBind_ok, exceptPure, TlsConfig.empty,
        RuntimeConfig.empty] <;> try (split <;> rfl)
  | some t =>
    obtain ⟨mt, tao, trd, tfs, th2⟩ := t
    cases tfs with
    | none =>
      cases rc with
      | none =>
        simp [check_ftps_state_dyn, check_ftps_state, AppService.toJVal, TlsConfig.toJVal,
        RuntimeConfig.toJVal, Cors.toJVal, List.append_assoc, lookupKey_optField_ne,
        lookupKey_optField_eq, lookupKey_optField_last, lookupKey, pyGet, pyGetD, pyLower,
        truthy, pyOrSO, jStr, jBool, exceptBind_ok, exceptPure, TlsConfig.empty,
        RuntimeConfig.empty] <;> try (split <;> rfl)
      | some r =>
        obtain ⟨ao, rd, fs, h2, lx, wx, hc, ah, co⟩ := r
        cases fs <;> simp [check_ftps_state_dyn, check_ftps_state, AppService.toJVal, TlsConfig.toJVal,
        RuntimeConfig.toJVal, Cors.toJVal, List.append_assoc, lookupKey_optField_ne,
        lookupKey_optField_eq, lookupKey_optField_last, lookupKey, pyGet, pyGetD, pyLower,
        truthy, pyOrSO, jStr, jBool, exceptBind_ok, exceptPure, TlsConfig.empty,
        RuntimeConfig.empty] <;> try (split <;> rfl)
    | some sfs =>
      cases hse : sfs.isEmpty <;>
      cases rc with
      | none =>
        simp [check_ftps_state_dyn, check_ftps_state, AppService.toJVal, TlsConfig.toJVal,
        RuntimeConfig.toJVal, Cors.toJVal, List.append_assoc, lookupKey_optField_ne,
        lookupKey_optField_eq, lookupKey_optField_last, lookupKey, pyGet, pyGetD, pyLower,
        truthy, pyOrSO, jStr, jBool, exceptBind_ok, exceptPure, TlsConfig.empty,
        RuntimeConfig.empty, hse] <;> try (split <;> rfl)
      | some r =>
        obtain ⟨ao, rd, fs, h2, lx, wx, hc, ah, co⟩ := r
        cases fs <;> simp [check_ftps_state_dyn, check_ftps_state, AppService.toJVal, TlsConfig.toJVal,
        RuntimeConfig.toJVal, Cors.toJVal, List.append_assoc, lookupKey_optField_ne,
        lookupKey_optField_eq, lookupKey_optField_last, lookupKey, pyGet, pyGetD, pyLower,
        truthy, pyOrSO, jStr, jBool, exceptBind_ok, exceptPure, TlsConfig.empty,
        RuntimeConfig.empty, hse] <;> try (split <;> rfl)

theorem diag_dyn_corr (app : AppService) :
    check_diagnostic_logs_dyn (AppService.toJVal app) =
      .ok ((check_diagnostic_logs app).map (fun f => f.title)) := by
  obtain ⟨nm, tc, cfg, idn, rc, pl, dl, bc, ds, vn, ipr, au, cd, sc⟩ := app
  cases dl with
  | none => simp [check_diagnostic_logs_dyn, check_diagnostic_logs, AppService.toJVal, DiagLogs.toJVal,
      AppLogsCfg.toJVal, HttpLogsCfg.toJVal, LevelCfg.toJVal, EnabledCfg.toJVal,
      List.append_assoc, lookupKey_optField_ne, lookupKey_optField_eq, lookupKey_optField_last,
      lookupKey, pyGet, pyGetD, truthy, pyOrB, jEqStr, jStr, jBool, exceptBind_ok, exceptPure,
      DiagLogs.empty, AppLogsCfg.empty, HttpLogsCfg.empty, LevelCfg.empty, EnabledCfg.empty, bne]
  | some d =>
    obtain ⟨alc, hlc⟩ := d
    rcases alc with _ | ⟨_ | ⟨_ | l⟩, _ | ⟨_ | bl⟩⟩ <;>
    rcases hlc with _ | ⟨_ | ⟨_ | hb⟩, _ | ⟨_ | bb⟩⟩ <;>
      simp [check_diagnostic_logs_dyn, check_diagnostic_logs, AppService.toJVal, DiagLogs.toJVal,
      AppLogsCfg.toJVal, HttpLogsCfg.toJVal, LevelCfg.toJVal, EnabledCfg.toJVal,
      List.append_assoc, lookupKey_optField_ne, lookupKey_optField_eq, lookupKey_optField_last,
      lookupKey, pyGet, pyGetD, truthy, pyOrB, jEqStr, jStr, jBool, exceptBind_ok, exceptPure,
      DiagLogs.empty, AppLogsCfg.empty, HttpLogsCfg.empty, LevelCfg.empty, EnabledCfg.empty, bne] <;>
      (repeat' (split <;> (try simp [check_diagnostic_logs_dyn, check_diagnostic_logs, AppService.toJVal, DiagLogs.toJVal,
      AppLogsCfg.toJVal, HttpLogsCfg.toJVal, LevelCfg.toJVal, EnabledCfg.toJVal,
      List.append_assoc, lookupKey_optField_ne, lookupKey_optField_eq, lookupKey_optField_last,
      lookupKey, pyGet, pyGetD, truthy, pyOrB, jEqStr, jStr, jBool, exceptBind_ok, exceptPure,
      DiagLogs.empty, AppLogsCfg.empty, HttpLogsCfg.empty, LevelCfg.empty, EnabledCfg.empty, bne, *]))) <;>
      (try rfl)

/-- C4 counterexample: a record whose `tlsConfig` sub-field is explicitly
null makes the FTPS rule raise an AttributeError (Python `None.get`)
instead of returning a finding list, so the rules are not total on
wrong-typed sub-fields. -/
theorem null_subfield_raises :
    check_ftps_state_dyn (JVal.obj [("tlsConfig", JVal.null)]) = .error "AttributeError" := rfl

/-- C4 (amended): on every record of the well-typed schema — in particular
with arbitrarily many absent sub-fields, which are handled via the
documented defaults — the cited FTPS and diagnostic-log rules never raise
under the dynamic dictionary semantics and return exactly the typed
model's findings; totality does not extend to wrong-typed (explicitly
null) sub-fields. -/
theorem rules_total_on_welltyped (app : AppService) :
    check_ftps_state_dyn (AppService.toJVal app) =
      .ok ((check_ftps_state app).map (fun f => f.title)) ∧
    check_diagnostic_logs_dyn (AppService.toJVal app) =
      .ok ((check_diagnostic_logs app).map (fun f => f.title)) :=
  ⟨ftps_dyn_corr app, diag_dyn_corr app⟩

end AppAssess
